import Mathlib

/-! Overview.
Verification of the gesture / gaze classification core of the
`tfjs-non-verbal-models` repository.

The repository contains two browser demos; the locally authored logic is a
pure geometric classification layer:

* `src/hand-pose-detection/demos/live_video/src/index.js` — geometry
  predicates (`arePointsColinear`, `arePointsTriangle`,
  `areLinesParallel2D`, `arePointsColinear2D`, `distance2D`), feature
  extractors (`isFingerStraight`, `isHandOpen`), rule checks
  (`checkMiddleFinger`, `checkOpenPalm`, `checkFingerInterlocked`) and the
  entry point `detectGesture`.
* `src/face-landmarks-detection/demos/live_video/src/index.js` —
  `getIrisCenter` and `detectGazeDirection`.

JavaScript numbers are modelled as real numbers (`ℝ`); landmark sets are
modelled as total index functions `Nat → Point2` following the fixed
anatomical landmark scheme (hand: 21 points, face: 478 points).  Nullable
values (`null`/`undefined` hands or keypoint arrays) are modelled by
`Option`.  Boolean-returning JS predicates over reals become `Prop`-valued
definitions; functions returning a gesture string or `null` become
`Option String`.
-/

noncomputable section
open Classical

/-- A 2D pixel-space point `{x, y}`. -/
structure Point2 where
  x : ℝ
  y : ℝ

/-- A 3D model-space point `{x, y, z}`. -/
structure Point3 where
  x : ℝ
  y : ℝ
  z : ℝ

/-- A hand landmark set: 21 anatomically indexed 2D keypoints
(wrist = 0, per-finger MCP/PIP/DIP/TIP groups).  Modelled as a total
index function, per the fixed landmark-scheme contract. -/
def Landmarks : Type := Nat → Point2

/-- One detected hand: a handedness tag, optional 2D keypoints and
optional 3D keypoints (the 3D set is read but never used by
`detectGesture`). -/
structure Hand where
  handedness : String
  keypoints : Option Landmarks
  keypoints3D : Option (Nat → Point3)

/-- One detected face: 478 anatomically indexed 2D keypoints. -/
structure Face where
  keypoints : Nat → Point2

/-! Section: Geometry predicate library (hand demo, lines 24–57 and 139–165) -/

/-- Source `arePointsColinear(p1, p2, p3, tolerance = 8e-2)`: the normalized 3D
cross-product magnitude of `(p2−p1)` and `(p3−p1)` is below `tolerance`;
false when either vector has zero length. -/
def arePointsColinear (p1 p2 p3 : Point3) (tolerance : ℝ) : Prop :=
  let v1x := p2.x - p1.x; let v1y := p2.y - p1.y; let v1z := p2.z - p1.z
  let v2x := p3.x - p1.x; let v2y := p3.y - p1.y; let v2z := p3.z - p1.z
  let cx := v1y * v2z - v1z * v2y
  let cy := v1z * v2x - v1x * v2z
  let cz := v1x * v2y - v1y * v2x
  let crossNorm := Real.sqrt (cx ^ 2 + cy ^ 2 + cz ^ 2)
  let v1Norm := Real.sqrt (v1x ^ 2 + v1y ^ 2 + v1z ^ 2)
  let v2Norm := Real.sqrt (v2x ^ 2 + v2y ^ 2 + v2z ^ 2)
  ¬(v1Norm * v2Norm = 0) ∧ crossNorm / (v1Norm * v2Norm) < tolerance

/-- Source `arePointsTriangle(p1, p2, p3, tolerance = 15e-2)`: the complementary
"sharp bend" predicate — same normalized cross-product magnitude, but
required to exceed `tolerance`; false on zero-length vectors. -/
def arePointsTriangle (p1 p2 p3 : Point3) (tolerance : ℝ) : Prop :=
  let v1x := p2.x - p1.x; let v1y := p2.y - p1.y; let v1z := p2.z - p1.z
  let v2x := p3.x - p1.x; let v2y := p3.y - p1.y; let v2z := p3.z - p1.z
  let cx := v1y * v2z - v1z * v2y
  let cy := v1z * v2x - v1x * v2z
  let cz := v1x * v2y - v1y * v2x
  let crossNorm := Real.sqrt (cx ^ 2 + cy ^ 2 + cz ^ 2)
  let v1Norm := Real.sqrt (v1x ^ 2 + v1y ^ 2 + v1z ^ 2)
  let v2Norm := Real.sqrt (v2x ^ 2 + v2y ^ 2 + v2z ^ 2)
  ¬(v1Norm * v2Norm = 0) ∧ crossNorm / (v1Norm * v2Norm) > tolerance

/-- Source `areLinesParallel2D(p1, p2, q1, q2, toleranceDeg = 20)`: the angle (in
degrees, via `acos` of the clamped normalized dot product) between segments
`(p2−p1)` and `(q2−q1)` is within `toleranceDeg` of 0° or of 180°; false
when either segment has zero length. -/
def areLinesParallel2D (p1 p2 q1 q2 : Point2) (toleranceDeg : ℝ) : Prop :=
  let v1x := p2.x - p1.x; let v1y := p2.y - p1.y
  let v2x := q2.x - q1.x; let v2y := q2.y - q1.y
  let dot := v1x * v2x + v1y * v2y
  let norm1 := Real.sqrt (v1x ^ 2 + v1y ^ 2)
  let norm2 := Real.sqrt (v2x ^ 2 + v2y ^ 2)
  ¬(norm1 * norm2 = 0) ∧
    (let cosTheta := dot / (norm1 * norm2)
     let angleDeg := Real.arccos (min 1 (max (-1) cosTheta)) * 180 / Real.pi
     angleDeg < toleranceDeg ∨ |180 - angleDeg| < toleranceDeg)

/-- Source `arePointsColinear2D(p1, p2, p3, tolerance = 0.1)`: the normalized
absolute 2D cross product (signed area) of `(p2−p1)` and `(p3−p1)` is
below `tolerance`; false when either vector has zero length. -/
def arePointsColinear2D (p1 p2 p3 : Point2) (tolerance : ℝ) : Prop :=
  let v1x := p2.x - p1.x; let v1y := p2.y - p1.y
  let v2x := p3.x - p1.x; let v2y := p3.y - p1.y
  let area := |v1x * v2y - v1y * v2x|
  let v1Len := Real.sqrt (v1x ^ 2 + v1y ^ 2)
  let v2Len := Real.sqrt (v2x ^ 2 + v2y ^ 2)
  ¬(v1Len * v2Len = 0) ∧ area / (v1Len * v2Len) < tolerance

/-- Source `distance2D(p1, p2)`: Euclidean distance in pixel space. -/
def distance2D (p1 p2 : Point2) : ℝ :=
  let dx := p1.x - p2.x
  let dy := p1.y - p2.y
  Real.sqrt (dx * dx + dy * dy)

/-! Section: Feature extractors (hand demo, lines 167–190) -/

/-- Source `isFingerStraight(hand, mcpIdx, pipIdx, dipIdx, tipIdx,
tolerance = 0.15)`: (MCP, PIP, TIP) and (PIP, DIP, TIP) are both
2D-colinear. -/
def isFingerStraight (hand : Landmarks) (mcpIdx pipIdx dipIdx tipIdx : Nat)
    (tolerance : ℝ) : Prop :=
  arePointsColinear2D (hand mcpIdx) (hand pipIdx) (hand tipIdx) tolerance ∧
  arePointsColinear2D (hand pipIdx) (hand dipIdx) (hand tipIdx) tolerance

/-- The number of straight fingers among index, middle, ring, pinky
(the running `straightCount` of `isHandOpen`). -/
def straightCount (hand : Landmarks) : Nat :=
  (if isFingerStraight hand 5 6 7 8 0.15 then 1 else 0) +
  (if isFingerStraight hand 9 10 11 12 0.15 then 1 else 0) +
  (if isFingerStraight hand 13 14 15 16 0.15 then 1 else 0) +
  (if isFingerStraight hand 17 18 19 20 0.15 then 1 else 0)

/-- Source `isHandOpen(hand)`: false on an absent hand, otherwise at least 3 of
the 4 non-thumb fingers are straight. -/
def isHandOpen : Option Landmarks → Prop
  | none => False
  | some hand => 3 ≤ straightCount hand

/-! Section: Rule checks (hand demo, lines 59–77 and 192–241) -/

/-- Source `checkMiddleFinger(landmarks)`: middle fingertip above its PIP joint
(smaller `y`), index, ring and pinky fingertips below theirs. -/
def checkMiddleFinger (landmarks : Landmarks) : Option String :=
  if (landmarks 12).y < (landmarks 10).y ∧
     (landmarks 8).y > (landmarks 6).y ∧
     (landmarks 16).y > (landmarks 14).y ∧
     (landmarks 20).y > (landmarks 18).y
  then some ("Middle Finger") else none

/-- Source `checkOpenPalm(leftHand, rightHand)`: null on an absent hand; null
unless both hands are open; `"Open Palm"` iff additionally the
wrist→middle-fingertip segments are parallel within 20°. -/
def checkOpenPalm (leftHand rightHand : Option Landmarks) : Option String :=
  match leftHand, rightHand with
  | some l, some r =>
    if ¬isHandOpen (some l) ∨ ¬isHandOpen (some r) then none
    else if areLinesParallel2D (l 0) (l 12) (r 0) (r 12) 20 then
      some ("Open Palm")
    else none
  | _, _ => none

/-- The joint indices `[3, 6, 10, 14, 18]` compared by
`checkFingerInterlocked`. -/
def jointIdx : List Nat := [3, 6, 10, 14, 18]

/-- The running `interlockedCount`: how many of the 5 corresponding
left/right joints are strictly within 40 pixels. -/
def interlockedCount (l r : Landmarks) : Nat :=
  (jointIdx.map (fun i => if distance2D (l i) (r i) < 40 then 1 else 0)).sum

/-- Source `checkFingerInterlocked(leftHand, rightHand)`: null on an absent hand;
`"Finger Interlocked"` iff at least 3 of the 5 joint pairs are within 40
pixels. -/
def checkFingerInterlocked (leftHand rightHand : Option Landmarks) :
    Option String :=
  match leftHand, rightHand with
  | some l, some r =>
    if 3 ≤ interlockedCount l r then some ("Finger Interlocked") else none
  | _, _ => none

/-! Section: Gesture entry point (hand demo, lines 244–285)

The single-hand `for` loop of `detectGesture` becomes the recursive
`singleHandPhase`; the calls to `checkFingerPointing` and
`checkPalmUpward` are commented out in the source (lines 277–281), so the
loop body only runs `checkMiddleFinger`. -/

/-- The phase-2 loop of `detectGesture`: per hand in order, skip hands
without keypoints, return the first `checkMiddleFinger` hit. -/
def singleHandPhase : List Hand → Option String
  | [] => none
  | hand :: rest =>
    match hand.keypoints with
    | none => singleHandPhase rest
    | some landmarks =>
      match checkMiddleFinger landmarks with
      | some g => some g
      | none => singleHandPhase rest

/-- The phase-1 block of `detectGesture` (lines 248–267): when at least 2
hands are present, find the first `Left`- and the first `Right`-tagged
hand; when both exist and both carry 2D keypoints, run
`checkFingerInterlocked` and then `checkOpenPalm`; any falling-through
case yields no label. -/
def twoHandPhase (hands : List Hand) : Option String :=
  if 2 ≤ hands.length then
    match hands.find? (fun h => h.handedness == "Left"),
          hands.find? (fun h => h.handedness == "Right") with
    | some left, some right =>
      match left.keypoints, right.keypoints with
      | some leftLm, some rightLm =>
        (match checkFingerInterlocked (some leftLm) (some rightLm) with
         | some g => some g
         | none => checkOpenPalm (some leftLm) (some rightLm))
      | _, _ => none
    | _, _ => none
  else none

/-- Source `detectGesture(hands)`: null on an empty sequence; otherwise the
two-hand rules (interlocked, then open palm) when at least 2 hands are
present and the first `Left`- and `Right`-tagged hands both carry 2D
keypoints; otherwise the per-hand middle-finger sweep. -/
def detectGesture (hands : List Hand) : Option String :=
  if hands.length = 0 then none
  else
    match twoHandPhase hands with
    | some g => some g
    | none => singleHandPhase hands

/-! Section: Gaze pipeline (face demo, lines 39–104) -/

/-- Source `getIrisCenter(irisPoints)`: arithmetic mean of the iris cluster. -/
def getIrisCenter (irisPoints : List Point2) : Point2 :=
  { x := (irisPoints.map Point2.x).sum / irisPoints.length,
    y := (irisPoints.map Point2.y).sum / irisPoints.length }

/-- The left pupil: iris center of keypoints 468–472. -/
def leftPupil (face : Face) : Point2 :=
  getIrisCenter [face.keypoints 468, face.keypoints 469, face.keypoints 470,
                 face.keypoints 471, face.keypoints 472]

/-- The right pupil: iris center of keypoints 473–477. -/
def rightPupil (face : Face) : Point2 :=
  getIrisCenter [face.keypoints 473, face.keypoints 474, face.keypoints 475,
                 face.keypoints 476, face.keypoints 477]

/-- Source `relX`: average over both eyes of the pupil's horizontal position
relative to the eye corners (left eye corners at indices 33/133, right eye
corners at 362/263). -/
def relX (face : Face) : ℝ :=
  (((leftPupil face).x - (face.keypoints 33).x) /
      ((face.keypoints 133).x - (face.keypoints 33).x) +
   ((rightPupil face).x - (face.keypoints 362).x) /
      ((face.keypoints 263).x - (face.keypoints 362).x)) / 2

/-- Source `relY`: average over both eyes of the pupil's vertical position
relative to the top/bottom lids (left eye 159/145, right eye 386/374). -/
def relY (face : Face) : ℝ :=
  (((leftPupil face).y - (face.keypoints 159).y) /
      ((face.keypoints 145).y - (face.keypoints 159).y) +
   ((rightPupil face).y - (face.keypoints 386).y) /
      ((face.keypoints 374).y - (face.keypoints 386).y)) / 2

/-- Source `detectGazeDirection(face)`: the if/else-if cascade on `relX`/`relY`
of the face demo (lines 93–103). -/
def detectGazeDirection (face : Face) : String :=
  if relX face < 0.35 then "RIGHT"
  else if relX face > 0.65 then "LEFT"
  else if relY face < 0.3 ∧ relY face > 0 then "UP"
  else if relY face < 0 then "DOWN"
  else "CENTER"

/-! Section: Specification-side gesture evaluator.

Here `detectGestureSpec` transcribes §4.4 of the specification word for word:
two phases, phase 1 (interlocked before open palm, with their stated
conditions) only when at least two hands are present and the `Left`- and
`Right`-tagged hands both carry 2D keypoints, phase 2 the per-hand middle
finger test in the sequence's order, null when nothing fires (also on the
empty sequence).  `detectGesture` above is proved equal to it. -/

/-- Phase 1 of the specification: `Finger Interlocked` (≥ 3 of the 5 joint
pairs within 40 px) tested before `Open Palm` (both hands open and
wrist→middle-fingertip segments parallel within 20°). -/
def twoHandPhaseSpec (hands : List Hand) : Option String :=
  if 2 ≤ hands.length then
    match hands.find? (fun h => h.handedness == "Left"),
          hands.find? (fun h => h.handedness == "Right") with
    | some left, some right =>
      match left.keypoints, right.keypoints with
      | some leftLm, some rightLm =>
        if 3 ≤ interlockedCount leftLm rightLm then some ("Finger Interlocked")
        else if isHandOpen (some leftLm) ∧ isHandOpen (some rightLm) ∧
            areLinesParallel2D (leftLm 0) (leftLm 12) (rightLm 0) (rightLm 12)
              20 then some ("Open Palm")
        else none
      | _, _ => none
    | _, _ => none
  else none

/-- Phase 2 of the specification: the `Middle Finger` condition tested for
each hand in the sequence's given order. -/
def middleFingerSweep : List Hand → Option String
  | [] => none
  | hand :: rest =>
    match hand.keypoints with
    | none => middleFingerSweep rest
    | some lm =>
      if (lm 12).y < (lm 10).y ∧ (lm 8).y > (lm 6).y ∧
         (lm 16).y > (lm 14).y ∧ (lm 20).y > (lm 18).y
      then some ("Middle Finger")
      else middleFingerSweep rest

/-- The full specification evaluator: first phase-1 label, else first
phase-2 label, else no gesture. -/
def detectGestureSpec (hands : List Hand) : Option String :=
  match twoHandPhaseSpec hands with
  | some g => some g
  | none => middleFingerSweep hands

/-! Section: Concrete test inputs -/

/-- The all-zero hand: every keypoint at the origin.  No finger is
straight (zero-length joint vectors), so the hand is not open. -/
def zeroHand : Landmarks := fun _ => ⟨0, 0⟩

/-- A hand with every keypoint at `(40, 0)`, so that every joint is at
distance exactly 40 from the corresponding `zeroHand` joint. -/
def farHand : Landmarks := fun _ => ⟨40, 0⟩

/-- An open upright hand: each non-thumb finger lies on its own vertical
line (MCP at y = 30 down to TIP at y = 0), wrist below the middle MCP. -/
def openHand : Landmarks := fun i =>
  if i = 0 then ⟨20, 40⟩
  else if i = 5 then ⟨10, 30⟩ else if i = 6 then ⟨10, 20⟩
  else if i = 7 then ⟨10, 10⟩ else if i = 8 then ⟨10, 0⟩
  else if i = 9 then ⟨20, 30⟩ else if i = 10 then ⟨20, 20⟩
  else if i = 11 then ⟨20, 10⟩ else if i = 12 then ⟨20, 0⟩
  else if i = 13 then ⟨30, 30⟩ else if i = 14 then ⟨30, 20⟩
  else if i = 15 then ⟨30, 10⟩ else if i = 16 then ⟨30, 0⟩
  else if i = 17 then ⟨40, 30⟩ else if i = 18 then ⟨40, 20⟩
  else if i = 19 then ⟨40, 10⟩ else if i = 20 then ⟨40, 0⟩
  else ⟨0, 0⟩

/-- A left-tagged detected hand carrying `openHand` keypoints. -/
def openLeft : Hand := ⟨"Left", some openHand, none⟩

/-- A right-tagged detected hand carrying `openHand` keypoints. -/
def openRight : Hand := ⟨"Right", some openHand, none⟩

/-- A two-hand frame in which both the interlocked and the open-palm
conditions hold simultaneously. -/
def bothHands : List Hand := [openLeft, openRight]

/-- A hand satisfying the middle-finger condition: middle fingertip above
its PIP, the other three fingertips below theirs. -/
def mfHand : Landmarks := fun i =>
  if i = 12 ∨ i = 6 ∨ i = 14 ∨ i = 18 then ⟨0, 0⟩ else ⟨0, 10⟩

/-- A face whose pupils sit at horizontal position 0.2 within both eyes
(`relX = 0.2`): eye corners 10 px apart, pupils 2 px from the inner
corner. -/
def rightGazeFace : Face := ⟨fun i =>
  if i = 33 then ⟨0, 0⟩ else if i = 133 then ⟨10, 0⟩
  else if i = 362 then ⟨20, 0⟩ else if i = 263 then ⟨30, 0⟩
  else if i = 159 then ⟨5, -5⟩ else if i = 145 then ⟨5, 5⟩
  else if i = 386 then ⟨25, -5⟩ else if i = 374 then ⟨25, 5⟩
  else if 468 ≤ i ∧ i ≤ 472 then ⟨2, 0⟩
  else if 473 ≤ i then ⟨22, 0⟩
  else ⟨0, 0⟩⟩

/-- A face with `relX = 1/2` and `relY = 0` exactly: pupils at the
horizontal midpoint of the corners and at the top-lid height. -/
def midTopFace : Face := ⟨fun i =>
  if i = 33 then ⟨0, 0⟩ else if i = 133 then ⟨10, 0⟩
  else if i = 362 then ⟨20, 0⟩ else if i = 263 then ⟨30, 0⟩
  else if i = 159 then ⟨5, -5⟩ else if i = 145 then ⟨5, 5⟩
  else if i = 386 then ⟨25, -5⟩ else if i = 374 then ⟨25, 5⟩
  else if 468 ≤ i ∧ i ≤ 472 then ⟨5, -5⟩
  else if 473 ≤ i then ⟨25, -5⟩
  else ⟨0, 0⟩⟩

/-- A face with `relX = 1/2` and `relY = 1/10`: pupils slightly below the
top lid, horizontally centered. -/
def upGazeFace : Face := ⟨fun i =>
  if i = 33 then ⟨0, 0⟩ else if i = 133 then ⟨10, 0⟩
  else if i = 362 then ⟨20, 0⟩ else if i = 263 then ⟨30, 0⟩
  else if i = 159 then ⟨5, -5⟩ else if i = 145 then ⟨5, 5⟩
  else if i = 386 then ⟨25, -5⟩ else if i = 374 then ⟨25, 5⟩
  else if 468 ≤ i ∧ i ≤ 472 then ⟨5, -4⟩
  else if 473 ≤ i then ⟨25, -4⟩
  else ⟨0, 0⟩⟩

/-! Section: Helper lemmas -/

/-- The distance from a point to itself is zero. -/
lemma distance2D_self (p : Point2) : distance2D p p = 0 := by
  simp [distance2D]

/-- Sanity check from the specification: `distance2D((0,0),(3,4)) = 5`. -/
lemma distance2D_three_four : distance2D ⟨0, 0⟩ ⟨3, 4⟩ = 5 := by
  simp only [distance2D]
  rw [show ((⟨0, 0⟩ : Point2).x - (⟨3, 4⟩ : Point2).x) *
        ((⟨0, 0⟩ : Point2).x - (⟨3, 4⟩ : Point2).x) +
        ((⟨0, 0⟩ : Point2).y - (⟨3, 4⟩ : Point2).y) *
        ((⟨0, 0⟩ : Point2).y - (⟨3, 4⟩ : Point2).y) = 5 ^ 2 by norm_num]
  exact Real.sqrt_sq (by norm_num)

/-- Sanity check from the specification: the iris center of
`[(0,0),(2,0),(1,1),(1,−1),(0,2)]` is `(0.8, 0.4)`. -/
lemma getIrisCenter_example :
    (getIrisCenter [⟨0, 0⟩, ⟨2, 0⟩, ⟨1, 1⟩, ⟨1, -1⟩, ⟨0, 2⟩]).x = 0.8 ∧
    (getIrisCenter [⟨0, 0⟩, ⟨2, 0⟩, ⟨1, 1⟩, ⟨1, -1⟩, ⟨0, 2⟩]).y = 0.4 := by
  constructor <;> · simp [getIrisCenter]; norm_num

/-- A 2D colinearity witness: distinct endpoints and an exactly zero
signed area give `arePointsColinear2D` at any positive tolerance. -/
lemma arePointsColinear2D_intro (p1 p2 p3 : Point2) (tol : ℝ)
    (h1 : 0 < (p2.x - p1.x) ^ 2 + (p2.y - p1.y) ^ 2)
    (h2 : 0 < (p3.x - p1.x) ^ 2 + (p3.y - p1.y) ^ 2)
    (ha : (p2.x - p1.x) * (p3.y - p1.y) - (p2.y - p1.y) * (p3.x - p1.x) = 0)
    (ht : 0 < tol) : arePointsColinear2D p1 p2 p3 tol := by
  simp only [arePointsColinear2D]
  refine ⟨(mul_pos (Real.sqrt_pos.mpr h1) (Real.sqrt_pos.mpr h2)).ne', ?_⟩
  rw [ha]
  simpa using ht

/-- Scalar core of the exact-parallel witness: a segment compared with an
identically directed segment has angle 0°. -/
lemma parallel_core (a b tol : ℝ) (hpos : 0 < a ^ 2 + b ^ 2) (ht : 0 < tol) :
    ¬(Real.sqrt (a ^ 2 + b ^ 2) * Real.sqrt (a ^ 2 + b ^ 2) = 0) ∧
      (Real.arccos (min 1 (max (-1)
          ((a * a + b * b) /
            (Real.sqrt (a ^ 2 + b ^ 2) * Real.sqrt (a ^ 2 + b ^ 2))))) *
          180 / Real.pi < tol ∨
        |180 - Real.arccos (min 1 (max (-1)
          ((a * a + b * b) /
            (Real.sqrt (a ^ 2 + b ^ 2) * Real.sqrt (a ^ 2 + b ^ 2))))) *
          180 / Real.pi| < tol) := by
  have hss : Real.sqrt (a ^ 2 + b ^ 2) * Real.sqrt (a ^ 2 + b ^ 2) =
      a ^ 2 + b ^ 2 := Real.mul_self_sqrt hpos.le
  have hdot : a * a + b * b = a ^ 2 + b ^ 2 := by ring
  refine ⟨by rw [hss]; exact hpos.ne', Or.inl ?_⟩
  rw [hdot, hss, div_self hpos.ne']
  rw [show max (-1 : ℝ) 1 = 1 by norm_num, min_self, Real.arccos_one,
    zero_mul, zero_div]
  exact ht

/-- Two identically directed nondegenerate segments are parallel at any
positive tolerance. -/
lemma areLinesParallel2D_same_dir (p1 p2 q1 q2 : Point2) (tol : ℝ)
    (hx : p2.x - p1.x = q2.x - q1.x) (hy : p2.y - p1.y = q2.y - q1.y)
    (hpos : 0 < (p2.x - p1.x) ^ 2 + (p2.y - p1.y) ^ 2) (ht : 0 < tol) :
    areLinesParallel2D p1 p2 q1 q2 tol := by
  simp only [areLinesParallel2D]
  rw [← hx, ← hy]
  exact parallel_core (p2.x - p1.x) (p2.y - p1.y) tol hpos ht

/-- Function `checkMiddleFinger` only ever produces no label or `"Middle Finger"`. -/
lemma checkMiddleFinger_cases (lm : Landmarks) :
    checkMiddleFinger lm = none ∨ checkMiddleFinger lm = some ("Middle Finger") := by
  unfold checkMiddleFinger
  split_ifs <;> simp

/-- Function `checkFingerInterlocked` only ever produces no label or
`"Finger Interlocked"`. -/
lemma checkFingerInterlocked_cases (a b : Option Landmarks) :
    checkFingerInterlocked a b = none ∨
      checkFingerInterlocked a b = some ("Finger Interlocked") := by
  cases a with
  | none => simp [checkFingerInterlocked]
  | some l =>
    cases b with
    | none => simp [checkFingerInterlocked]
    | some r =>
      simp only [checkFingerInterlocked]
      split_ifs <;> simp

/-- Function `checkOpenPalm` only ever produces no label or `"Open Palm"`. -/
lemma checkOpenPalm_cases (a b : Option Landmarks) :
    checkOpenPalm a b = none ∨ checkOpenPalm a b = some ("Open Palm") := by
  cases a with
  | none => simp [checkOpenPalm]
  | some l =>
    cases b with
    | none => simp [checkOpenPalm]
    | some r =>
      simp only [checkOpenPalm]
      split_ifs <;> simp

/-- The phase-1 rule block of `detectGesture` (interlocked, falling back
to open palm) equals the specification's description of it. -/
lemma ruleBlock_eq_spec (l r : Landmarks) :
    (match checkFingerInterlocked (some l) (some r) with
     | some g => some g
     | none => checkOpenPalm (some l) (some r)) =
    (if 3 ≤ interlockedCount l r then some ("Finger Interlocked")
     else if isHandOpen (some l) ∧ isHandOpen (some r) ∧
         areLinesParallel2D (l 0) (l 12) (r 0) (r 12) 20 then some ("Open Palm")
     else none) := by
  by_cases hi : 3 ≤ interlockedCount l r
  · simp [checkFingerInterlocked, hi]
  · simp only [checkFingerInterlocked, if_neg hi]
    by_cases ho1 : isHandOpen (some l) <;>
      by_cases ho2 : isHandOpen (some r) <;>
      by_cases hp : areLinesParallel2D (l 0) (l 12) (r 0) (r 12) 20 <;>
      simp [checkOpenPalm, ho1, ho2, hp]

/-- The source's phase-1 block equals the specification's phase 1. -/
lemma twoHandPhase_eq_spec (hands : List Hand) :
    twoHandPhase hands = twoHandPhaseSpec hands := by
  unfold twoHandPhase twoHandPhaseSpec
  by_cases h2 : 2 ≤ hands.length
  · rw [if_pos h2, if_pos h2]
    cases hands.find? (fun h => h.handedness == "Left") with
    | none => rfl
    | some left =>
      cases hands.find? (fun h => h.handedness == "Right") with
      | none => rfl
      | some right =>
        simp only []
        cases left.keypoints with
        | none => rfl
        | some leftLm =>
          cases right.keypoints with
          | none => rfl
          | some rightLm => exact ruleBlock_eq_spec leftLm rightLm
  · rw [if_neg h2, if_neg h2]

/-- The source's phase-2 loop equals the specification's phase-2 sweep. -/
lemma singleHandPhase_eq_sweep (hands : List Hand) :
    singleHandPhase hands = middleFingerSweep hands := by
  induction hands with
  | nil => rfl
  | cons hand rest ih =>
    simp only [singleHandPhase, middleFingerSweep]
    cases hand.keypoints with
    | none => exact ih
    | some lm =>
      simp only [checkMiddleFinger]
      split_ifs with h
      · rfl
      · exact ih

/-- Function `singleHandPhase` only ever produces no label or `"Middle Finger"`. -/
lemma singleHandPhase_cases (hands : List Hand) :
    singleHandPhase hands = none ∨
      singleHandPhase hands = some ("Middle Finger") := by
  induction hands with
  | nil => exact Or.inl rfl
  | cons hand rest ih =>
    simp only [singleHandPhase]
    cases hand.keypoints with
    | none => exact ih
    | some lm =>
      simp only []
      rcases checkMiddleFinger_cases lm with h | h
      · rw [h]; exact ih
      · rw [h]; exact Or.inr rfl

/-- Function `twoHandPhase` only ever produces no label, `"Finger Interlocked"`,
or `"Open Palm"`. -/
lemma twoHandPhase_cases (hands : List Hand) :
    twoHandPhase hands = none ∨
      twoHandPhase hands = some ("Finger Interlocked") ∨
      twoHandPhase hands = some ("Open Palm") := by
  unfold twoHandPhase
  by_cases h2 : 2 ≤ hands.length
  · rw [if_pos h2]
    cases hands.find? (fun h => h.handedness == "Left") with
    | none => exact Or.inl rfl
    | some left =>
      cases hands.find? (fun h => h.handedness == "Right") with
      | none => exact Or.inl rfl
      | some right =>
        simp only []
        cases left.keypoints with
        | none => exact Or.inl rfl
        | some leftLm =>
          cases right.keypoints with
          | none => exact Or.inl rfl
          | some rightLm =>
            simp only []
            rcases checkFingerInterlocked_cases (some leftLm) (some rightLm)
              with h | h
            · rw [h]
              rcases checkOpenPalm_cases (some leftLm) (some rightLm)
                with h' | h'
              · rw [h']; exact Or.inl rfl
              · rw [h']; exact Or.inr (Or.inr rfl)
            · rw [h]; exact Or.inr (Or.inl rfl)
  · rw [if_neg h2]; exact Or.inl rfl

/-- Function `detectGesture` only ever produces no label, `"Finger Interlocked"`,
`"Open Palm"`, or `"Middle Finger"`. -/
lemma detectGesture_cases (hands : List Hand) :
    detectGesture hands = none ∨
      detectGesture hands = some ("Finger Interlocked") ∨
      detectGesture hands = some ("Open Palm") ∨
      detectGesture hands = some ("Middle Finger") := by
  unfold detectGesture
  split_ifs with h0
  · exact Or.inl rfl
  · rcases twoHandPhase_cases hands with h | h | h <;> rw [h]
    · rcases singleHandPhase_cases hands with h' | h' <;> rw [h']
      · exact Or.inl rfl
      · exact Or.inr (Or.inr (Or.inr rfl))
    · exact Or.inr (Or.inl rfl)
    · exact Or.inr (Or.inr (Or.inl rfl))

/-! Section: Claim theorems -/

/-- C1: for every sequence of detected hands, `detectGesture` evaluates
the rules in the fixed two-phase order described by the specification
(phase 1 — interlocked then open palm — only with ≥ 2 hands and
`Left`/`Right`-tagged hands both carrying 2D keypoints; phase 2 — the
middle-finger test per hand in order; null when nothing fires, also on
the empty sequence), and it never returns `"Pointing"` or
`"Palm Upward"`. -/
theorem detectGesture_priority_order (hands : List Hand) :
    detectGesture hands = detectGestureSpec hands ∧
    detectGesture hands ≠ some ("Pointing") ∧
    detectGesture hands ≠ some ("Palm Upward") := by
  refine ⟨?_, ?_, ?_⟩
  · unfold detectGesture detectGestureSpec
    rw [twoHandPhase_eq_spec, singleHandPhase_eq_sweep]
    split_ifs with h0
    · have he : hands = [] := List.length_eq_zero.mp h0
      subst he
      simp [twoHandPhaseSpec, middleFingerSweep]
    · rfl
  · rcases detectGesture_cases hands with h | h | h | h <;> rw [h] <;> simp
  · rcases detectGesture_cases hands with h | h | h | h <;> rw [h] <;> simp

/-- Witness for C1: the claim instantiated at the empty frame. -/
theorem detectGesture_priority_order_witness :
    detectGesture [] = detectGestureSpec [] ∧
    detectGesture [] ≠ some ("Pointing") ∧
    detectGesture [] ≠ some ("Palm Upward") :=
  detectGesture_priority_order []

/-- C6: `checkMiddleFinger` returns `"Middle Finger"` exactly when the
middle fingertip is above its PIP joint and the index, ring and pinky
fingertips are below theirs (thumb keypoints are never consulted), and
returns null whenever any of the four inequalities fails. -/
theorem checkMiddleFinger_spec (lm : Landmarks) :
    (checkMiddleFinger lm = some ("Middle Finger") ↔
      ((lm 12).y < (lm 10).y ∧ (lm 8).y > (lm 6).y ∧
       (lm 16).y > (lm 14).y ∧ (lm 20).y > (lm 18).y)) ∧
    (¬((lm 12).y < (lm 10).y ∧ (lm 8).y > (lm 6).y ∧
       (lm 16).y > (lm 14).y ∧ (lm 20).y > (lm 18).y) →
      checkMiddleFinger lm = none) := by
  unfold checkMiddleFinger
  constructor
  · split_ifs with h
    · simp [h]
    · simp [h]
  · intro h
    rw [if_neg h]

/-- Witness for C6: the concrete hand `mfHand` satisfies the four
inequalities and classifies as `"Middle Finger"`; the all-zero hand
fails them and produces no label. -/
theorem checkMiddleFinger_spec_witness :
    checkMiddleFinger mfHand = some ("Middle Finger") ∧
    checkMiddleFinger zeroHand = none := by
  constructor
  · exact (checkMiddleFinger_spec mfHand).1.mpr (by norm_num [mfHand])
  · exact (checkMiddleFinger_spec zeroHand).2 (by norm_num [zeroHand])

/-- C7: each colinearity/parallelism predicate returns false (rather than
true or a fault) on degenerate input, i.e. when one of the two compared
vectors/segments has zero length. -/
theorem degenerate_predicates_false (p1 p2 p3 : Point3) (u1 u2 u3 : Point2)
    (q1 q2 q3 q4 : Point2) (tol : ℝ) :
    (p2 = p1 ∨ p3 = p1 → ¬arePointsColinear p1 p2 p3 tol) ∧
    (u2 = u1 ∨ u3 = u1 → ¬arePointsColinear2D u1 u2 u3 tol) ∧
    (q2 = q1 ∨ q4 = q3 → ¬areLinesParallel2D q1 q2 q3 q4 tol) := by
  refine ⟨?_, ?_, ?_⟩
  · rintro (rfl | rfl) <;> simp only [arePointsColinear] <;>
      rintro ⟨hne, -⟩ <;> apply hne <;> norm_num [Real.sqrt_zero]
  · rintro (rfl | rfl) <;> simp only [arePointsColinear2D] <;>
      rintro ⟨hne, -⟩ <;> apply hne <;> norm_num [Real.sqrt_zero]
  · rintro (rfl | rfl) <;> simp only [areLinesParallel2D] <;>
      rintro ⟨hne, -⟩ <;> apply hne <;> norm_num [Real.sqrt_zero]

/-- Witness for C7: all three predicates are false at concrete degenerate
inputs (`p2 = p1`, respectively a zero-length first segment). -/
theorem degenerate_predicates_false_witness :
    ¬arePointsColinear ⟨0, 0, 0⟩ ⟨0, 0, 0⟩ ⟨1, 1, 1⟩ 1 ∧
    ¬arePointsColinear2D ⟨0, 0⟩ ⟨0, 0⟩ ⟨1, 1⟩ 1 ∧
    ¬areLinesParallel2D ⟨0, 0⟩ ⟨0, 0⟩ ⟨0, 0⟩ ⟨1, 1⟩ 1 := by
  have h := degenerate_predicates_false ⟨0, 0, 0⟩ ⟨0, 0, 0⟩ ⟨1, 1, 1⟩
    ⟨0, 0⟩ ⟨0, 0⟩ ⟨1, 1⟩ ⟨0, 0⟩ ⟨0, 0⟩ ⟨0, 0⟩ ⟨1, 1⟩ 1
  exact ⟨h.1 (Or.inl rfl), h.2.1 (Or.inl rfl), h.2.2 (Or.inl rfl)⟩

/-- C8: absent (null/undefined) hands report no match rather than fail:
`isHandOpen` of an absent hand is false, and `checkOpenPalm` and
`checkFingerInterlocked` return null when either argument is absent. -/
theorem absent_hand_no_match (h : Option Landmarks) :
    ¬isHandOpen none ∧
    checkOpenPalm none h = none ∧ checkOpenPalm h none = none ∧
    checkFingerInterlocked none h = none ∧
    checkFingerInterlocked h none = none := by
  refine ⟨by simp [isHandOpen], ?_, ?_, ?_, ?_⟩ <;> cases h <;>
    simp [checkOpenPalm, checkFingerInterlocked]

/-- Witness for C8: the dependent rules at a concrete present/absent
argument pair. -/
theorem absent_hand_no_match_witness :
    checkOpenPalm none (some zeroHand) = none ∧
    checkFingerInterlocked (some zeroHand) none = none :=
  ⟨(absent_hand_no_match (some zeroHand)).2.1,
   (absent_hand_no_match (some zeroHand)).2.2.2.2⟩

/-- C9: `arePointsColinear` is monotone in its tolerance: a triple
colinear at a smaller tolerance stays colinear at any larger one, so
decreasing the tolerance can only turn "colinear" into "not colinear". -/
theorem arePointsColinear_tolerance_mono (p1 p2 p3 : Point3) (t t' : ℝ)
    (hle : t' ≤ t) (h : arePointsColinear p1 p2 p3 t') :
    arePointsColinear p1 p2 p3 t := by
  simp only [arePointsColinear] at h ⊢
  exact ⟨h.1, lt_of_lt_of_le h.2 hle⟩

/-- Witness for C9: a concrete colinear triple at tolerance `5e-2`
remains colinear at the default tolerance `8e-2`. -/
theorem arePointsColinear_tolerance_mono_witness :
    arePointsColinear ⟨0, 0, 0⟩ ⟨1, 0, 0⟩ ⟨1, 0, 0⟩ (8e-2) := by
  refine arePointsColinear_tolerance_mono _ _ _ _ (5e-2) (by norm_num) ?_
  simp only [arePointsColinear]
  constructor
  · norm_num [Real.sqrt_one, Real.sqrt_zero]
  · norm_num [Real.sqrt_one, Real.sqrt_zero]

/-- C10: the interlocked distance comparison is strict — joint pairs at
distance exactly 40 do not count — so two hands whose 5 compared joint
pairs are all at distance ≥ 40 (including exactly 40) produce no label. -/
theorem checkFingerInterlocked_strict (l r : Landmarks)
    (h : ∀ i ∈ jointIdx, 40 ≤ distance2D (l i) (r i)) :
    checkFingerInterlocked (some l) (some r) = none := by
  have hc : interlockedCount l r = 0 := by
    unfold interlockedCount
    have h3 := h 3 (by simp [jointIdx])
    have h6 := h 6 (by simp [jointIdx])
    have h10 := h 10 (by simp [jointIdx])
    have h14 := h 14 (by simp [jointIdx])
    have h18 := h 18 (by simp [jointIdx])
    simp only [jointIdx, List.map_cons, List.map_nil, List.sum_cons,
      List.sum_nil]
    rw [if_neg (not_lt.mpr h3), if_neg (not_lt.mpr h6),
      if_neg (not_lt.mpr h10), if_neg (not_lt.mpr h14),
      if_neg (not_lt.mpr h18)]
    norm_num
  simp [checkFingerInterlocked, hc]

/-- Witness for C10: every compared joint pair of `zeroHand`/`farHand` is
at distance exactly 40, and no label is produced. -/
theorem checkFingerInterlocked_strict_witness :
    checkFingerInterlocked (some zeroHand) (some farHand) = none := by
  apply checkFingerInterlocked_strict
  have h40 : distance2D ⟨0, 0⟩ ⟨40, 0⟩ = 40 := by
    simp only [distance2D]
    rw [show ((⟨0, 0⟩ : Point2).x - (⟨40, 0⟩ : Point2).x) *
          ((⟨0, 0⟩ : Point2).x - (⟨40, 0⟩ : Point2).x) +
          ((⟨0, 0⟩ : Point2).y - (⟨40, 0⟩ : Point2).y) *
          ((⟨0, 0⟩ : Point2).y - (⟨40, 0⟩ : Point2).y) = 40 ^ 2 by norm_num]
    exact Real.sqrt_sq (by norm_num)
  intro i _
  show (40 : ℝ) ≤ distance2D ⟨0, 0⟩ ⟨40, 0⟩
  rw [h40]

/-- C2: `detectGazeDirection` decides by first match in the exact order
`relX < 0.35 → RIGHT`, `relX > 0.65 → LEFT`, `0 < relY < 0.3 → UP`,
`relY < 0 → DOWN`, otherwise `CENTER`, where `relX`/`relY` are the
two-eye averages of relative pupil position; consequently an extreme
`relX` always yields a horizontal label, regardless of `relY`. -/
theorem detectGazeDirection_order (face : Face) :
    detectGazeDirection face =
      (if relX face < 0.35 then "RIGHT"
       else if relX face > 0.65 then "LEFT"
       else if 0 < relY face ∧ relY face < 0.3 then "UP"
       else if relY face < 0 then "DOWN"
       else "CENTER") ∧
    (relX face < 0.35 ∨ relX face > 0.65 →
      detectGazeDirection face = "RIGHT" ∨
        detectGazeDirection face = "LEFT") := by
  constructor
  · unfold detectGazeDirection
    by_cases h1 : relX face < 0.35
    · rw [if_pos h1, if_pos h1]
    · rw [if_neg h1, if_neg h1]
      by_cases h2 : relX face > 0.65
      · rw [if_pos h2, if_pos h2]
      · rw [if_neg h2, if_neg h2]
        by_cases h3 : relY face < 0.3 ∧ relY face > 0
        · rw [if_pos h3, if_pos ⟨h3.2, h3.1⟩]
        · rw [if_neg h3,
            if_neg (show ¬(0 < relY face ∧ relY face < 0.3) from
              fun hc => h3 ⟨hc.2, hc.1⟩)]
  · intro h
    unfold detectGazeDirection
    rcases h with h | h
    · rw [if_pos h]; exact Or.inl rfl
    · rw [if_neg (not_lt.mpr (by linarith : (0.35 : ℝ) ≤ relX face)),
        if_pos h]
      exact Or.inr rfl

/-- Witness for C2: a concrete face with `relX = 0.2` receives a
horizontal label. -/
theorem detectGazeDirection_order_witness :
    detectGazeDirection rightGazeFace = "RIGHT" ∨
    detectGazeDirection rightGazeFace = "LEFT" := by
  have hx : relX rightGazeFace = 0.2 := by
    norm_num [relX, leftPupil, rightPupil, getIrisCenter, rightGazeFace]
  exact (detectGazeDirection_order rightGazeFace).2
    (Or.inl (by rw [hx]; norm_num))

/-- Counterexample to C3 as stated: at `relX = 0.5` and `relY = 0`
(which lies in the claimed half-open interval `[0, 0.3)`), the evaluator
returns `"CENTER"`, not `"UP"` — the UP branch requires `relY > 0`
strictly. -/
theorem detectGazeDirection_relY_zero_center :
    relX midTopFace = 0.5 ∧ relY midTopFace = 0 ∧
    detectGazeDirection midTopFace = "CENTER" ∧
    detectGazeDirection midTopFace ≠ "UP" := by
  have hx : relX midTopFace = 0.5 := by
    norm_num [relX, leftPupil, rightPupil, getIrisCenter, midTopFace]
  have hy : relY midTopFace = 0 := by
    norm_num [relY, leftPupil, rightPupil, getIrisCenter, midTopFace]
  have hc : detectGazeDirection midTopFace = "CENTER" := by
    unfold detectGazeDirection
    rw [hx, hy, if_neg (by norm_num), if_neg (by norm_num),
      if_neg (by norm_num), if_neg (by norm_num)]
  refine ⟨hx, hy, hc, ?_⟩
  rw [hc]
  simp

/-- C3 (amended): for every face with `relX = 0.5` and `relY` in the open
interval `(0, 0.3)`, `detectGazeDirection` returns `"UP"`, not
`"CENTER"`. -/
theorem detectGazeDirection_up_amended (face : Face) (hx : relX face = 0.5)
    (h0 : 0 < relY face) (h3 : relY face < 0.3) :
    detectGazeDirection face = "UP" := by
  unfold detectGazeDirection
  rw [hx, if_neg (by norm_num), if_neg (by norm_num), if_pos ⟨h3, h0⟩]

/-- Witness for the amended C3: a concrete face with `relX = 0.5` and
`relY = 0.1` classifies as `"UP"`. -/
theorem detectGazeDirection_up_amended_witness :
    detectGazeDirection upGazeFace = "UP" := by
  have hx : relX upGazeFace = 0.5 := by
    norm_num [relX, leftPupil, rightPupil, getIrisCenter, upGazeFace]
  have hy : relY upGazeFace = 0.1 := by
    norm_num [relY, leftPupil, rightPupil, getIrisCenter, upGazeFace]
  exact detectGazeDirection_up_amended upGazeFace hx
    (by rw [hy]; norm_num) (by rw [hy]; norm_num)

/-- C4: for present hands, `checkOpenPalm` returns `"Open Palm"` exactly
when both hands are open (≥ 3 straight non-thumb fingers each) and the
wrist→middle-fingertip segments are parallel within 20°; a hand with
fewer than 3 straight fingers forces null even with parallel segments. -/
theorem checkOpenPalm_spec (l r : Landmarks) :
    (checkOpenPalm (some l) (some r) = some ("Open Palm") ↔
      isHandOpen (some l) ∧ isHandOpen (some r) ∧
        areLinesParallel2D (l 0) (l 12) (r 0) (r 12) 20) ∧
    (straightCount l < 3 ∨ straightCount r < 3 →
      checkOpenPalm (some l) (some r) = none) := by
  constructor
  · simp only [checkOpenPalm]
    by_cases ho1 : isHandOpen (some l) <;>
      by_cases ho2 : isHandOpen (some r) <;>
      by_cases hp : areLinesParallel2D (l 0) (l 12) (r 0) (r 12) 20 <;>
      simp [ho1, ho2, hp]
  · intro h
    simp only [checkOpenPalm]
    rcases h with h | h
    · have hno : ¬isHandOpen (some l) := by simp only [isHandOpen]; omega
      rw [if_pos (Or.inl hno)]
    · have hno : ¬isHandOpen (some r) := by simp only [isHandOpen]; omega
      rw [if_pos (Or.inr hno)]

/-- Witness for C4: the all-zero hand has no straight finger, so even two
identical (hence exactly parallel) such hands produce no label. -/
theorem checkOpenPalm_spec_witness :
    checkOpenPalm (some zeroHand) (some zeroHand) = none := by
  have hns : ∀ a b c d : Nat, ¬isFingerStraight zeroHand a b c d 0.15 := by
    intro a b c d hc
    simp only [isFingerStraight, arePointsColinear2D, zeroHand] at hc
    norm_num [Real.sqrt_zero] at hc
  have h0 : straightCount zeroHand = 0 := by
    unfold straightCount
    rw [if_neg (hns 5 6 7 8), if_neg (hns 9 10 11 12),
      if_neg (hns 13 14 15 16), if_neg (hns 17 18 19 20)]
  exact (checkOpenPalm_spec zeroHand zeroHand).2 (Or.inl (by omega))

/-- C5: for present hands, `checkFingerInterlocked` returns
`"Finger Interlocked"` exactly when at least 3 of the 5 fixed joint pairs
are within 40 px; and `detectGesture` tests this rule before `Open Palm`,
so an input satisfying both rules yields `"Finger Interlocked"`. -/
theorem checkFingerInterlocked_spec (l r : Landmarks) (hands : List Hand)
    (lh rh : Hand) :
    (checkFingerInterlocked (some l) (some r) = some ("Finger Interlocked") ↔
      3 ≤ interlockedCount l r) ∧
    (2 ≤ hands.length →
      hands.find? (fun h => h.handedness == "Left") = some lh →
      hands.find? (fun h => h.handedness == "Right") = some rh →
      lh.keypoints = some l → rh.keypoints = some r →
      checkFingerInterlocked (some l) (some r) = some ("Finger Interlocked") →
      checkOpenPalm (some l) (some r) = some ("Open Palm") →
      detectGesture hands = some ("Finger Interlocked")) := by
  constructor
  · simp only [checkFingerInterlocked]
    split_ifs with h
    · simp [h]
    · simp [h]
  · intro h2 hfl hfr hkl hkr hint hop
    unfold detectGesture
    rw [if_neg (by omega : ¬hands.length = 0)]
    have htp : twoHandPhase hands = some ("Finger Interlocked") := by
      unfold twoHandPhase
      rw [if_pos h2, hfl, hfr]
      simp only []
      rw [hkl, hkr]
      simp only []
      rw [hint]
    rw [htp]

/-- Witness for C5: two identical open upright hands satisfy both the
interlocked condition (all joint distances 0) and the open-palm condition
(straight fingers, exactly parallel segments), and `detectGesture`
returns `"Finger Interlocked"`. -/
theorem checkFingerInterlocked_spec_witness :
    detectGesture bothHands = some ("Finger Interlocked") := by
  have hcount : 3 ≤ interlockedCount openHand openHand := by
    norm_num [interlockedCount, jointIdx, distance2D_self]
  have hint : checkFingerInterlocked (some openHand) (some openHand) =
      some ("Finger Interlocked") :=
    (checkFingerInterlocked_spec openHand openHand bothHands openLeft
      openRight).1.mpr hcount
  have hf1 : isFingerStraight openHand 5 6 7 8 0.15 := by
    simp only [isFingerStraight]
    exact ⟨arePointsColinear2D_intro _ _ _ _ (by norm_num [openHand])
        (by norm_num [openHand]) (by norm_num [openHand]) (by norm_num),
      arePointsColinear2D_intro _ _ _ _ (by norm_num [openHand])
        (by norm_num [openHand]) (by norm_num [openHand]) (by norm_num)⟩
  have hf2 : isFingerStraight openHand 9 10 11 12 0.15 := by
    simp only [isFingerStraight]
    exact ⟨arePointsColinear2D_intro _ _ _ _ (by norm_num [openHand])
        (by norm_num [openHand]) (by norm_num [openHand]) (by norm_num),
      arePointsColinear2D_intro _ _ _ _ (by norm_num [openHand])
        (by norm_num [openHand]) (by norm_num [openHand]) (by norm_num)⟩
  have hf3 : isFingerStraight openHand 13 14 15 16 0.15 := by
    simp only [isFingerStraight]
    exact ⟨arePointsColinear2D_intro _ _ _ _ (by norm_num [openHand])
        (by norm_num [openHand]) (by norm_num [openHand]) (by norm_num),
      arePointsColinear2D_intro _ _ _ _ (by norm_num [openHand])
        (by norm_num [openHand]) (by norm_num [openHand]) (by norm_num)⟩
  have hf4 : isFingerStraight openHand 17 18 19 20 0.15 := by
    simp only [isFingerStraight]
    exact ⟨arePointsColinear2D_intro _ _ _ _ (by norm_num [openHand])
        (by norm_num [openHand]) (by norm_num [openHand]) (by norm_num),
      arePointsColinear2D_intro _ _ _ _ (by norm_num [openHand])
        (by norm_num [openHand]) (by norm_num [openHand]) (by norm_num)⟩
  have hopen : isHandOpen (some openHand) := by
    simp only [isHandOpen, straightCount]
    rw [if_pos hf1, if_pos hf2, if_pos hf3, if_pos hf4]
    norm_num
  have hpar : areLinesParallel2D (openHand 0) (openHand 12) (openHand 0)
      (openHand 12) 20 :=
    areLinesParallel2D_same_dir _ _ _ _ _ rfl rfl
      (by norm_num [openHand]) (by norm_num)
  have hop : checkOpenPalm (some openHand) (some openHand) =
      some ("Open Palm") := by
    simp only [checkOpenPalm]
    rw [if_neg (show ¬(¬isHandOpen (some openHand) ∨
          ¬isHandOpen (some openHand)) from by push_neg; exact ⟨hopen, hopen⟩),
      if_pos hpar]
  exact (checkFingerInterlocked_spec openHand openHand bothHands openLeft
    openRight).2 (by norm_num [bothHands]) rfl rfl rfl rfl hint hop

end

